import Mathlib

/-
Verification development for the `ca_factory` backend of the
Model-Forward Clinical Abstraction Platform.

The Python modules under `backend/ca_factory/core/` are shallowly embedded
here:
  * `delegation.py`   — `DelegationEngine` (delegation decision, context
                        bundles, sub-agent spawning);
  * `agent_manager.py`— `AgentManager` (token estimation, context pruning);
  * `quality_control.py` — `QualityController` (validation, metrics);
  * `factory.py`      — `CAFactory` (orchestration of the above).

Conventions of the embedding:
  * Python `float` values that only ever enter comparisons and arithmetic
    are modelled as exact rationals (`ℚ`);
  * Python dicts with a fixed key set become structures; dicts used as
    string-keyed registries become association lists
    (insertion-ordered, as Python dicts are);
  * `datetime.utcnow()` becomes an explicit timestamp argument;
  * fallible code (a Python function that may raise) returns `Except`.
-/

namespace CAFactory

/-! ## Delegation engine: `should_delegate` (delegation.py lines 55-113) -/

/-- Threshold configuration read by `DelegationEngine` via
`self.thresholds.get(key, default)`.  Each field holds the value the
`.get` call yields (the Python default when the key is absent). -/
structure DelegationThresholds where
  forceDelegate : List String := []
  neverDelegate : List String := []
  estimatedTokensThreshold : Nat := 40000
  multiSourceThreshold : Nat := 5
  reasoningDepthThreshold : Nat := 3
  maxParallelSubagents : Nat := 3
  deriving Repr, DecidableEq

/-- Complexity record passed to `should_delegate`; fields hold the values
`estimated_complexity.get(key, default)` yields. -/
structure Complexity where
  estimatedTokens : Nat := 0
  numSources : Nat := 1
  reasoningDepth : Nat := 1
  deriving Repr, DecidableEq

/-- The configuration state of a `DelegationEngine` relevant to
`should_delegate`: `self.delegated_tasks` and `self.thresholds`. -/
structure DelegationEngine where
  delegatedTasks : List String := []
  thresholds : DelegationThresholds := {}
  deriving Repr, DecidableEq

/-- `DelegationEngine.should_delegate` (delegation.py 55-113), with each
early `return` of the Python body becoming one branch of the cascade. -/
def shouldDelegate (eng : DelegationEngine) (taskType : String)
    (c : Complexity) : Bool :=
  if eng.thresholds.forceDelegate.contains taskType then true
  else if eng.thresholds.neverDelegate.contains taskType then false
  else if !(eng.delegatedTasks.contains taskType) then false
  else if c.estimatedTokens > eng.thresholds.estimatedTokensThreshold then true
  else if c.numSources > eng.thresholds.multiSourceThreshold then true
  else if c.reasoningDepth > eng.thresholds.reasoningDepthThreshold then true
  else false

/-- The delegation decision as the specification words it: the result of
the first matching rule in the fixed order (1) force-delegate, (2)
never-delegate, (3) not in the delegated task set, (4) token threshold,
(5) multi-source threshold, (6) reasoning-depth threshold, (7) otherwise
false.  Written from the spec text, to be compared with `shouldDelegate`. -/
def specShouldDelegate (eng : DelegationEngine) (taskType : String)
    (c : Complexity) : Bool :=
  if taskType ∈ eng.thresholds.forceDelegate then true
  else if taskType ∈ eng.thresholds.neverDelegate then false
  else if taskType ∉ eng.delegatedTasks then false
  else if eng.thresholds.estimatedTokensThreshold < c.estimatedTokens then true
  else if eng.thresholds.multiSourceThreshold < c.numSources then true
  else if eng.thresholds.reasoningDepthThreshold < c.reasoningDepth then true
  else false

/-! ## Agent manager: token estimation and context pruning
(agent_manager.py lines 177-275) -/

/-- One entry of `context["primed_knowledge"]`.  In Python this is a dict;
`relevanceScore` holds the value `k.get("relevance_score", 0)` yields and
`text` holds the `str(k)` rendering used by `_estimate_tokens`. -/
structure KnowledgeEntry where
  relevanceScore : ℚ
  text : String
  deriving Repr, DecidableEq

/-- The agent context built by `_create_agent_context` (agent_manager.py
124-154).  `inputs` holds the `str(context["inputs"])` rendering: the
inputs dict is never inspected structurally by estimation or pruning
(`_apply_temporal_pruning` returns it unchanged), only its string length
is used. -/
structure Context where
  systemPrompt : String
  domainPrompt : String
  inputs : String
  primedKnowledge : List KnowledgeEntry
  tools : List String
  deriving Repr, DecidableEq

/-- Pruning policy read by `_prune_context` via
`self.pruning_policy.get(key, default)`; fields hold the values those
`.get` calls yield. -/
structure PruningPolicy where
  minRelevanceScore : ℚ := mkRat 1 2
  maxDocumentsPerQuery : Nat := 10
  compressVerboseOutputs : Bool := false
  maxOutputTokens : Nat := 2000
  temporalWindowDays : Nat := 14
  keepCriticalEvents : List String := []
  deriving Repr, DecidableEq

/-- `AgentManager._estimate_tokens` (agent_manager.py 177-196): the
length of the concatenated context text, integer-divided by 4. -/
def estimateTokens (c : Context) : Nat :=
  (c.systemPrompt ++ c.domainPrompt ++ c.inputs
    ++ String.join (c.primedKnowledge.map (·.text))).length / 4

/-- The sort order used by `_prune_context` line 223-227:
`sorted(knowledge, key=lambda k: k.get("relevance_score", 0), reverse=True)`,
a stable sort by relevance score descending.  Python's `sorted` and
`List.insertionSort` are both stable sorts for this total preorder, hence
compute the same list. -/
def relevanceGe (a b : KnowledgeEntry) : Prop :=
  b.relevanceScore ≤ a.relevanceScore

instance : DecidableRel relevanceGe := fun a b =>
  inferInstanceAs (Decidable (b.relevanceScore ≤ a.relevanceScore))

instance : IsTotal KnowledgeEntry relevanceGe :=
  ⟨fun a b => le_total b.relevanceScore a.relevanceScore⟩

instance : IsTrans KnowledgeEntry relevanceGe :=
  ⟨fun _ _ _ hab hbc => le_trans hbc hab⟩

/-- `AgentManager._apply_temporal_pruning` (agent_manager.py 252-275):
computes a cutoff date and the critical-event list but returns `inputs`
unchanged (documented placeholder; spec.md line 117 records this). -/
def applyTemporalPruning (_policy : PruningPolicy) (_windowDays : Nat)
    (inputs : String) : String :=
  inputs

/-- The `primed_knowledge` pipeline of `AgentManager._prune_context`
(agent_manager.py 219-235): sort by relevance descending (stable), keep
at most `max_documents_per_query`, drop entries below
`min_relevance_score`. -/
def pruneKnowledge (policy : PruningPolicy) (l : List KnowledgeEntry) :
    List KnowledgeEntry :=
  ((l.insertionSort relevanceGe).take policy.maxDocumentsPerQuery).filter
    (fun k => policy.minRelevanceScore ≤ k.relevanceScore)

/-- `AgentManager._prune_context` (agent_manager.py 198-250): the
knowledge pipeline above, the vacuous `compress_verbose_outputs` branch
(lines 238-240 bind locals and do nothing), then the temporal branch,
which runs when `temporal_window_days` is truthy and replaces `inputs` by
`_apply_temporal_pruning(inputs, window_days)`.  The `target_tokens`
argument is never consulted by the body. -/
def pruneContext (policy : PruningPolicy) (c : Context)
    (_targetTokens : Nat) : Context :=
  let c1 := { c with primedKnowledge := pruneKnowledge policy c.primedKnowledge }
  if policy.temporalWindowDays ≠ 0 then
    { c1 with
      inputs := applyTemporalPruning policy policy.temporalWindowDays c1.inputs }
  else c1

/-! ## Quality controller: validation (quality_control.py lines 61-226)

Score values that are Python floats are modelled as exact rationals; the
f-string rendering of a score is modelled by `fmtScore`, the terminating
decimal expansion of the rational (matching `repr` on the decimal float
values the code manipulates). -/

/-- Decimal digits of `r / d` (with `r < d`), produced by long division;
`fuel` bounds the expansion length. -/
def decimalDigits : Nat → Nat → Nat → List Char
  | 0, _, _ => []
  | fuel + 1, r, d =>
    if r = 0 then []
    else Char.ofNat (48 + r * 10 / d) :: decimalDigits fuel (r * 10 % d) d

/-- Rendering of a numeric score inside an f-string, e.g. `0.5`, `0.7`,
`2`, `-1.25`.  Integral values render without a decimal point (as Python
ints do); the Python int/float distinction is otherwise immaterial to the
validation logic. -/
def fmtScore (q : ℚ) : String :=
  let sign := if q < 0 then "-" else ""
  let n := q.num.natAbs
  let d := q.den
  let whole := n / d
  let rest := n % d
  if rest = 0 then sign ++ toString whole
  else sign ++ toString whole ++ "." ++ String.mk (decimalDigits 30 rest d)

/-- Embedding of Python's implicit int-to-float widening: a count used
in rational arithmetic. -/
def natToRat (n : Nat) : ℚ := mkRat n 1

/-- The `quality_gates` configuration dict.  Fields are `Option`s because
the code supplies a different `.get` default at different call sites;
each embedded call site applies its own `getD`. -/
structure QualityGates where
  minRecallAt5 : Option ℚ := none
  minRecallAt10 : Option ℚ := none
  minMrr : Option ℚ := none
  minCitationQuality : Option ℚ := none
  minClinicalAccuracy : Option ℚ := none
  maxP95LatencyMs : Option ℚ := none
  minCacheHitRate : Option ℚ := none
  failAction : Option String := none
  deriving Repr, DecidableEq

/-- One evidence citation of a Q&A result; `relevanceScore` holds the
value `c.get("relevance_score", 0)` yields, `payload` the rest of the
citation dict (never inspected by validation). -/
structure Citation where
  relevanceScore : ℚ
  payload : String := ""
  deriving Repr, DecidableEq

/-- The fields of a Q&A result dict read by `validate_qa_response`:
`result.get("confidence", 0)` and `result.get("evidence_citations", [])`. -/
structure QaResult where
  confidence : ℚ := 0
  evidenceCitations : List Citation := []
  deriving Repr, DecidableEq

/-- The validation dict built by the `validate_*` methods:
`{"passed": ..., "failures": [...], "metrics": {...}}`. -/
structure Validation where
  passed : Bool
  failures : List String
  metrics : List (String × ℚ)
  deriving Repr, DecidableEq

/-- The recurring statement pattern
`if cond: validation["passed"] = False; validation["failures"].append(msg)`. -/
def applyCheck (v : Validation) (failCond : Bool) (msg : String) :
    Validation :=
  if failCond then
    { v with passed := false, failures := v.failures ++ [msg] }
  else v

/-- The recurring statement pattern `validation["metrics"][name] = value`. -/
def addMetric (v : Validation) (name : String) (value : ℚ) : Validation :=
  { v with metrics := v.metrics ++ [(name, value)] }

/-- `QualityController.validate_qa_response` (quality_control.py 106-175),
as a pure function of the gates and the result (the trailing
`_response_metrics.append` is state tracking, not part of the returned
report).  The confidence threshold is the literal `0.7` of line 129; the
citation minimum is the literal `1` of line 141; the citation-quality
threshold is `quality_gates.get("min_citation_quality", 0.85)`. -/
def validateQaResponse (gates : QualityGates) (r : QaResult) : Validation :=
  let confidence := r.confidence
  let minConfidence : ℚ := mkRat 7 10
  let v1 := addMetric
    (applyCheck ⟨true, [], []⟩ (confidence < minConfidence)
      ("Confidence " ++ fmtScore confidence ++ " below threshold "
        ++ fmtScore minConfidence))
    "confidence" confidence
  let citations := r.evidenceCitations
  let minCitations : Nat := 1
  let v2 := addMetric
    (applyCheck v1 (citations.length < minCitations)
      ("Citation count " ++ toString citations.length ++ " below minimum "
        ++ toString minCitations))
    "citation_count" (natToRat citations.length)
  if citations.isEmpty then v2
  else
    let avgCitationRelevance :=
      (citations.map (·.relevanceScore)).sum / natToRat citations.length
    let minCitationQuality := gates.minCitationQuality.getD (mkRat 85 100)
    addMetric
      (applyCheck v2 (avgCitationRelevance < minCitationQuality)
        ("Citation quality " ++ fmtScore avgCitationRelevance
          ++ " below threshold " ++ fmtScore minCitationQuality))
      "avg_citation_relevance" avgCitationRelevance

/-- The `summary` dict of a rule-evaluation result as read by
`validate_rule_evaluation`: `summary.get("overallConfidence", 0)`,
`summary.get("requiredRulesPassed", 0)`, `summary.get("requiredRulesTotal", 0)`. -/
structure RuleEvalSummary where
  overallConfidence : ℚ := 0
  requiredRulesPassed : Nat := 0
  requiredRulesTotal : Nat := 0
  deriving Repr, DecidableEq

/-- The rule-evaluation result dict as read by `validate_rule_evaluation`. -/
structure RuleEvalResult where
  summary : RuleEvalSummary := {}
  deriving Repr, DecidableEq

/-- `QualityController.validate_rule_evaluation` (quality_control.py
177-226): confidence against the literal `0.7`, then the required-rule
pass ratio against the literal `0.8` when `required_total > 0`. -/
def validateRuleEvaluation (r : RuleEvalResult) : Validation :=
  let oc := r.summary.overallConfidence
  let minConfidence : ℚ := mkRat 7 10
  let v1 := addMetric
    (applyCheck ⟨true, [], []⟩ (oc < minConfidence)
      ("Overall confidence " ++ fmtScore oc ++ " below threshold "
        ++ fmtScore minConfidence))
    "overall_confidence" oc
  if 0 < r.summary.requiredRulesTotal then
    let requiredRate := natToRat r.summary.requiredRulesPassed
      / natToRat r.summary.requiredRulesTotal
    applyCheck (addMetric v1 "required_rules_rate" requiredRate)
      (requiredRate < mkRat 8 10)
      ("Required rules pass rate " ++ fmtScore requiredRate ++ " is low")
  else v1

/-! ## Factory orchestration of quality gates (factory.py 127-146 and
194-209) -/

/-- The quality-gate stage of `CAFactory.ask_question` (factory.py
127-146): validate, and when the report fails and
`config["quality_gates"].get("fail_action", "warn")` is `"block"`, raise
`ValueError` (modelled as `Except.error` carrying the failure list the
exception message embeds); otherwise return the result with the report
attached under `agent_info.quality_validation`. -/
def askQuestionQuality (gates : QualityGates) (r : QaResult) :
    Except (List String) (QaResult × Validation) :=
  let v := validateQaResponse gates r
  if !v.passed then
    let failAction := gates.failAction.getD "warn"
    if failAction == "block" then Except.error v.failures
    else Except.ok (r, v)
  else Except.ok (r, v)

/-- The quality-gate stage of `CAFactory.evaluate_rules` (factory.py
194-209): validate, log a warning on failure, and return the result with
the report attached — `fail_action` is never consulted and nothing is
raised on this path. -/
def evaluateRulesQuality (_gates : QualityGates) (r : RuleEvalResult) :
    Except (List String) (RuleEvalResult × Validation) :=
  Except.ok (r, validateRuleEvaluation r)

/-! ## Quality controller: metric aggregation (quality_control.py 355-495) -/

/-- One entry of `self._retrieval_metrics` (quality_control.py 97-102). -/
structure RetrievalRecord where
  timestamp : String
  avgRelevanceScore : ℚ
  documentsRetrieved : Nat
  documentsUsed : Nat
  deriving Repr, DecidableEq

/-- One entry of `self._response_metrics` (quality_control.py 168-173). -/
structure ResponseRecord where
  timestamp : String
  confidence : ℚ
  citationCount : Nat
  avgCitationRelevance : ℚ
  deriving Repr, DecidableEq

/-- One entry of `self._performance_metrics` (quality_control.py 376-381). -/
structure PerfRecord where
  timestamp : String
  latencyMs : ℚ
  tokensUsed : Nat
  cacheHit : Bool
  deriving Repr, DecidableEq

/-- The metric-tracking state of a `QualityController` (quality_control.py
46-55). -/
structure QCState where
  retrievalMetrics : List RetrievalRecord := []
  responseMetrics : List ResponseRecord := []
  performanceMetrics : List PerfRecord := []
  totalRequests : Nat := 0
  failedQualityGates : Nat := 0
  cacheHits : Nat := 0
  cacheMisses : Nat := 0
  deriving Repr, DecidableEq

/-- Python's banker's rounding to an integer, on the exact rational value
(float representation error abstracted away). -/
def roundHalfEven (x : ℚ) : ℤ :=
  let n := ⌊x⌋
  let frac := x - n
  if frac < mkRat 1 2 then n
  else if mkRat 1 2 < frac then n + 1
  else if n % 2 = 0 then n else n + 1

/-- Python's `round(x, digits)` on the exact rational value. -/
def roundTo (x : ℚ) (digits : Nat) : ℚ :=
  let m : ℚ := natToRat (10 ^ digits)
  mkRat (roundHalfEven (x * m)) 1 / m

/-- Return type of `_aggregate_retrieval_metrics`. -/
structure RetrievalAgg where
  totalQueries : Nat
  avgRelevanceScore : ℚ
  recallAt5 : ℚ
  recallAt10 : ℚ
  mrr : ℚ
  deriving Repr, DecidableEq

/-- `QualityController._aggregate_retrieval_metrics` (quality_control.py
421-441); the recall and MRR figures are the hard-coded mock constants. -/
def aggregateRetrievalMetrics (st : QCState) : RetrievalAgg :=
  if st.retrievalMetrics.isEmpty then ⟨0, 0, 0, 0, 0⟩
  else
    let total := st.retrievalMetrics.length
    let avgRelevance :=
      (st.retrievalMetrics.map (·.avgRelevanceScore)).sum / natToRat total
    ⟨total, roundTo avgRelevance 3, mkRat 87 100, mkRat 92 100, mkRat 91 100⟩

/-- Return type of `_aggregate_response_metrics`. -/
structure ResponseAgg where
  totalResponses : Nat
  avgConfidence : ℚ
  avgCitationCount : ℚ
  citationQuality : ℚ
  clinicalAccuracy : ℚ
  confidenceCalibrationError : ℚ
  smeValidationRate : ℚ
  deriving Repr, DecidableEq

/-- `QualityController._aggregate_response_metrics` (quality_control.py
443-468). -/
def aggregateResponseMetrics (st : QCState) : ResponseAgg :=
  if st.responseMetrics.isEmpty then ⟨0, 0, 0, 0, 0, 0, 0⟩
  else
    let total := st.responseMetrics.length
    let avgConfidence :=
      (st.responseMetrics.map (·.confidence)).sum / natToRat total
    let avgCitations :=
      (st.responseMetrics.map (fun m => natToRat m.citationCount)).sum
        / natToRat total
    ⟨total, roundTo avgConfidence 3, roundTo avgCitations 1,
      mkRat 88 100, mkRat 92 100, mkRat 8 100, mkRat 15 100⟩

/-- Return type of `_aggregate_performance_metrics`. -/
structure PerfAgg where
  avgLatencyMs : ℚ
  p50LatencyMs : ℚ
  p95LatencyMs : ℚ
  p99LatencyMs : ℚ
  cacheHitRate : ℚ
  avgTokensPerRequest : ℚ
  deriving Repr, DecidableEq

/-- `QualityController._aggregate_performance_metrics` (quality_control.py
470-495).  `sorted(...)` on latencies is an ascending sort;
`int(len * 0.95)` becomes `len * 95 / 100` in `Nat` (truncating, as
`int()` does); in-range indexing becomes `getD`. -/
def aggregatePerformanceMetrics (st : QCState) : PerfAgg :=
  if st.performanceMetrics.isEmpty then ⟨0, 0, 0, 0, 0, 0⟩
  else
    let latencies :=
      (st.performanceMetrics.map (·.latencyMs)).insertionSort (· ≤ ·)
    let tokens := st.performanceMetrics.map (·.tokensUsed)
    let totalRequests := st.cacheHits + st.cacheMisses
    let cacheHitRate : ℚ :=
      if 0 < totalRequests then natToRat st.cacheHits / natToRat totalRequests
      else 0
    let n := latencies.length
    ⟨roundTo (latencies.sum / natToRat n) 1,
      roundTo (latencies.getD (n / 2) 0) 1,
      roundTo (latencies.getD (n * 95 / 100) 0) 1,
      roundTo (latencies.getD (n * 99 / 100) 0) 1,
      roundTo cacheHitRate 3,
      roundTo ((tokens.map natToRat).sum / natToRat tokens.length) 1⟩

/-- The `aggregation_period` dict returned by `get_metrics`. -/
structure AggregationPeriod where
  periodStart : String
  periodEnd : String
  deriving Repr, DecidableEq

/-- Return type of `get_metrics`. -/
structure Metrics where
  retrievalAgg : RetrievalAgg
  responseAgg : ResponseAgg
  performanceAgg : PerfAgg
  aggregationPeriod : AggregationPeriod
  deriving Repr, DecidableEq

/-- `QualityController.get_metrics` (quality_control.py 387-419): the
three aggregations are computed from the recorded state alone; the
optional date arguments are only echoed into `aggregation_period`. -/
def getMetrics (st : QCState) (startDate endDate : Option String) :
    Metrics :=
  ⟨aggregateRetrievalMetrics st,
    aggregateResponseMetrics st,
    aggregatePerformanceMetrics st,
    ⟨startDate.getD "all_time", endDate.getD "now"⟩⟩

/-! ## Delegation engine: sub-agent spawning (delegation.py 172-298)

`spawn_subagent` is an `async` method.  Its body between two `await`
points runs atomically (asyncio is cooperatively scheduled), and the
outcome of `asyncio.wait_for(self._execute_subagent(...), timeout)` is
one of: a result, `asyncio.TimeoutError`, or another exception.  We
embed the body as a function of the registry state at registration time
and of that outcome. -/

/-- Status values written into a registry entry. -/
inductive SubStatus where
  | running
  | completed
  | timedOut
  | failed
  deriving Repr, DecidableEq

/-- A registry entry of `self._active_subagents` (delegation.py 205-210). -/
structure SubagentEntry where
  agentType : String
  startedAt : String
  timeout : Nat
  status : SubStatus
  deriving Repr, DecidableEq

/-- Insertion-ordered string-keyed dict assignment `d[k] = v`: replace in
place when the key exists, else append. -/
def dictSet {α : Type} : List (String × α) → String → α → List (String × α)
  | [], k, v => [(k, v)]
  | (k', v') :: rest, k, v =>
    if k' = k then (k, v) :: rest else (k', v') :: dictSet rest k v

/-- Dict lookup `d.get(k)`. -/
def dictGet {α : Type} : List (String × α) → String → Option α
  | [], _ => none
  | (k', v') :: rest, k => if k' = k then some v' else dictGet rest k

/-- Dict deletion `del d[k]` (removing the one binding of `k`, if any). -/
def dictDel {α : Type} : List (String × α) → String → List (String × α)
  | [], _ => []
  | (k', v') :: rest, k =>
    if k' = k then rest else (k', v') :: dictDel rest k

/-- The registry of active sub-agents. -/
def Registry : Type := List (String × SubagentEntry)

/-- How the awaited `asyncio.wait_for(self._execute_subagent ...)` call
resolves: with a result, with `asyncio.TimeoutError`, or with some other
exception (carrying `str(e)`). -/
inductive ExecOutcome where
  | completes (tokensUsed : Nat) (confidence : ℚ)
  | timesOut
  | raises (msg : String)
  deriving Repr, DecidableEq

/-- The structured value `spawn_subagent` returns to its caller.  The
method returns on every path: exceptions from the awaited execution are
caught by the `except` clauses (delegation.py 226-243), so no constructor
models an escaping exception. -/
inductive SpawnResult where
  | ok (subagentId : String) (agentType : String) (tokensUsed : Nat)
      (confidence : ℚ)
  | timeoutErr (error : String) (subagentId : String) (timeout : Nat)
  | failedErr (error : String) (subagentId : String)
  deriving Repr, DecidableEq

/-- The body of `DelegationEngine.spawn_subagent` from registration
onwards (delegation.py 204-248): register the handle as `running`;
on completion mark `completed` and return the result; on
`asyncio.TimeoutError` mark `timeout` and return the structured timeout
dict `{"error": ..., "subagent_id": ..., "timeout": ...}` (lines
230-234); on any other exception mark `failed` and return the structured
failure dict; in all cases the `finally` block deletes the handle from
the registry (lines 245-248). -/
def spawnSubagentBody (reg : Registry) (subagentId agentType : String)
    (startedAt : String) (timeout : Nat) (outcome : ExecOutcome) :
    SpawnResult × Registry :=
  let reg1 := dictSet reg subagentId
    ⟨agentType, startedAt, timeout, SubStatus.running⟩
  let (result, reg2) :=
    match outcome with
    | ExecOutcome.completes tokensUsed confidence =>
      (SpawnResult.ok subagentId agentType tokensUsed confidence,
        dictSet reg1 subagentId
          ⟨agentType, startedAt, timeout, SubStatus.completed⟩)
    | ExecOutcome.timesOut =>
      (SpawnResult.timeoutErr "Sub-agent execution timeout" subagentId
          timeout,
        dictSet reg1 subagentId
          ⟨agentType, startedAt, timeout, SubStatus.timedOut⟩)
    | ExecOutcome.raises msg =>
      (SpawnResult.failedErr msg subagentId,
        dictSet reg1 subagentId
          ⟨agentType, startedAt, timeout, SubStatus.failed⟩)
  (result, dictDel reg2 subagentId)

/-! ## Concurrency bound on spawns (delegation.py 195-210 and 295-298)

The spawning coroutines are embedded as a transition system whose steps
are the atomic segments (code between `await` points) of
`spawn_subagent`.  A coroutine is in one of three phases: before the
capacity check (line 196), inside the polling loop of
`_wait_for_subagent_slot` (line 297), or registered and running
(line 205 onwards).  `running` counts registry entries: each registered
coroutine holds exactly one entry until its `finally` deletes it. -/

/-- Phase census of the spawning coroutines plus the capacity limit
`self.thresholds.get("max_parallel_subagents", 3)`. -/
structure SpawnSystem where
  notStarted : Nat
  waiting : Nat
  running : Nat
  maxParallel : Nat
  deriving Repr, DecidableEq

/-- Atomic steps of the system.  `registerDirect`: a coroutine finds
`len(active) < max` at line 197 and registers in the same segment.
`enterWait`: it finds the registry full and suspends in
`_wait_for_subagent_slot`.  `registerFromWait`: a waiting coroutine's
poll finds `len(active) < max`, leaves the loop and registers before its
next `await`.  `finish`: a running coroutine's `finally` removes its
registry entry (on completion, failure, or timeout alike). -/
inductive SpawnStep : SpawnSystem → SpawnSystem → Prop where
  | registerDirect (s : SpawnSystem) (h : 0 < s.notStarted)
      (hcap : s.running < s.maxParallel) :
      SpawnStep s { s with notStarted := s.notStarted - 1,
                           running := s.running + 1 }
  | enterWait (s : SpawnSystem) (h : 0 < s.notStarted)
      (hfull : s.maxParallel ≤ s.running) :
      SpawnStep s { s with notStarted := s.notStarted - 1,
                           waiting := s.waiting + 1 }
  | registerFromWait (s : SpawnSystem) (h : 0 < s.waiting)
      (hcap : s.running < s.maxParallel) :
      SpawnStep s { s with waiting := s.waiting - 1,
                           running := s.running + 1 }
  | finish (s : SpawnSystem) (h : 0 < s.running) :
      SpawnStep s { s with running := s.running - 1 }

/-- Interleavings: the reflexive-transitive closure of the atomic steps. -/
def SpawnReachable : SpawnSystem → SpawnSystem → Prop :=
  Relation.ReflTransGen SpawnStep

/-! ## Context bundles and truncation (delegation.py 115-170 and 310-351)

`_compress_bundle` with the `truncate` strategy serialises the bundle
with `json.dumps`, cuts the string at `target_tokens * 4` characters,
appends `"}"` and calls `json.loads` on the result.  We model the JSON
document structure, `json.dumps` (default separators `", "` and `": "`),
and `json.loads` as a fuel-bounded recursive-descent parser.  The parser
is deliberately lenient — it accepts a superset of what Python's
`json.loads` accepts (arbitrary escape pairs, arbitrary alphanumeric
scalar tokens) — so that when it rejects a string, `json.loads` raises
`JSONDecodeError` on that string as well. -/

/-- JSON values occurring in context bundles, plus `scalar` for the
number/keyword tokens the parser may produce. -/
inductive Jval where
  | null
  | str (s : String)
  | arr (elems : List Jval)
  | obj (fields : List (String × Jval))
  | scalar (token : String)

/-- String escaping of `json.dumps` for the characters that need it in
the bundles at hand (quote and backslash; control characters do not occur
in bundle content). -/
def escapeChar (c : Char) : List Char :=
  if c = '"' then ['\\', '"']
  else if c = '\\' then ['\\', '\\']
  else [c]

mutual

/-- `json.dumps` with its default separators `", "` and `": "`, as a
character list. -/
def dumpsVal : Jval → List Char
  | Jval.null => 'n' :: 'u' :: 'l' :: 'l' :: []
  | Jval.str s => '"' :: (s.data.flatMap escapeChar) ++ ['"']
  | Jval.arr es => '[' :: dumpsElems es ++ [']']
  | Jval.obj fs => '{' :: dumpsFields fs ++ ['}']
  | Jval.scalar t => t.data

/-- Array elements, `", "`-separated. -/
def dumpsElems : List Jval → List Char
  | [] => []
  | [e] => dumpsVal e
  | e :: rest => dumpsVal e ++ ',' :: ' ' :: dumpsElems rest

/-- Object members, `", "`-separated, each `"key": value`. -/
def dumpsFields : List (String × Jval) → List Char
  | [] => []
  | [(k, v)] =>
    '"' :: (k.data.flatMap escapeChar) ++ '"' :: ':' :: ' ' :: dumpsVal v
  | (k, v) :: rest =>
    ('"' :: (k.data.flatMap escapeChar) ++ '"' :: ':' :: ' ' :: dumpsVal v)
      ++ ',' :: ' ' :: dumpsFields rest

end

/-- JSON whitespace (RFC 8259: space, tab, newline, carriage return). -/
def isJsonWs (c : Char) : Bool :=
  c = ' ' || c = '\t' || c = '\n' || c = '\r'

/-- Skip leading JSON whitespace. -/
def skipWs : List Char → List Char
  | [] => []
  | c :: rest => if isJsonWs c then skipWs rest else c :: rest

/-- Characters that may make up a non-composite token (numbers and
keywords such as `null`, `true`, `NaN`, `-Infinity`, `1.5e-3`); a
superset of what Python accepts. -/
def isScalarChar (c : Char) : Bool :=
  c.isAlphanum || c = '+' || c = '-' || c = '.'

/-- Longest prefix of scalar characters and the remainder. -/
def takeScalar : List Char → List Char × List Char
  | [] => ([], [])
  | c :: rest =>
    if isScalarChar c then
      let (tok, r) := takeScalar rest
      (c :: tok, r)
    else ([], c :: rest)

/-- Parse the body of a string literal after the opening quote, up to the
closing quote; a backslash consumes the following character (lenient:
any escape pair is accepted). -/
def parseStringBody : Nat → List Char → Option (List Char × List Char)
  | 0, _ => none
  | _ + 1, [] => none
  | fuel + 1, c :: rest =>
    if c = '"' then some ([], rest)
    else if c = '\\' then
      match rest with
      | [] => none
      | e :: rest2 =>
        (parseStringBody fuel rest2).map
          (fun p => (c :: e :: p.1, p.2))
    else
      (parseStringBody fuel rest).map (fun p => (c :: p.1, p.2))

mutual

/-- Recursive-descent parser for a JSON value (lenient superset of
`json.loads`); returns the value and the unconsumed remainder. -/
def parseValue : Nat → List Char → Option (Jval × List Char)
  | 0, _ => none
  | fuel + 1, input =>
    match skipWs input with
    | [] => none
    | '"' :: rest =>
      (parseStringBody (fuel + 1) rest).map
        (fun p => (Jval.str (String.mk p.1), p.2))
    | '{' :: rest =>
      match skipWs rest with
      | '}' :: rest2 => some (Jval.obj [], rest2)
      | rest2 => (parseMembers fuel rest2).map
          (fun p => (Jval.obj p.1, p.2))
    | '[' :: rest =>
      match skipWs rest with
      | ']' :: rest2 => some (Jval.arr [], rest2)
      | rest2 => (parseElements fuel rest2).map
          (fun p => (Jval.arr p.1, p.2))
    | c :: rest =>
      if isScalarChar c then
        let (tok, r) := takeScalar (c :: rest)
        some (Jval.scalar (String.mk tok), r)
      else none

/-- Parse one or more `"key": value` members followed by `}`. -/
def parseMembers : Nat → List Char →
    Option (List (String × Jval) × List Char)
  | 0, _ => none
  | fuel + 1, input =>
    match skipWs input with
    | '"' :: rest =>
      match parseStringBody (fuel + 1) rest with
      | none => none
      | some (key, rest2) =>
        match skipWs rest2 with
        | ':' :: rest3 =>
          match parseValue fuel rest3 with
          | none => none
          | some (v, rest4) =>
            match skipWs rest4 with
            | ',' :: rest5 =>
              (parseMembers fuel rest5).map
                (fun p => ((String.mk key, v) :: p.1, p.2))
            | '}' :: rest5 => some ([(String.mk key, v)], rest5)
            | _ => none
        | _ => none
    | _ => none

/-- Parse one or more array elements followed by `]`. -/
def parseElements : Nat → List Char → Option (List Jval × List Char)
  | 0, _ => none
  | fuel + 1, input =>
    match parseValue fuel input with
    | none => none
    | some (v, rest) =>
      match skipWs rest with
      | ',' :: rest2 =>
        (parseElements fuel rest2).map (fun p => (v :: p.1, p.2))
      | ']' :: rest2 => some ([v], rest2)
      | _ => none

end

/-- `json.loads`: parse a full document; fail if anything but whitespace
remains. -/
def jsonLoads (s : List Char) : Option Jval :=
  match parseValue (s.length + 8) s with
  | some (v, rest) => if skipWs rest = [] then some v else none
  | none => none

/-- The `context_bundle_config` dict read by `create_context_bundle` and
`_compress_bundle` via `.get(key, default)`. -/
structure BundleConfig where
  includeInputs : Bool := true
  includeOutputs : Bool := true
  includeReasoning : Bool := true
  includeToolCalls : Bool := false
  maxBundleTokens : Nat := 2000
  compressionStrategy : String := "summarize"
  deriving Repr, DecidableEq

/-- `DelegationEngine._estimate_bundle_tokens` (delegation.py 310-314):
serialised length, integer-divided by 4. -/
def estimateBundleTokens (b : Jval) : Nat :=
  (dumpsVal b).length / 4

/-- `DelegationEngine._compress_bundle` (delegation.py 316-351).  The
`truncate` branch re-serialises, hard-cuts at `target_tokens * 4`
characters, appends `"}"` and calls `json.loads` on the result —
`Except.error` models the `json.JSONDecodeError` that escapes when that
string is not valid JSON.  `summarize` and `smart` (and any other
strategy) fall through and return the bundle unchanged. -/
def compressBundle (bundle : Jval) (strategy : String)
    (targetTokens : Nat) : Except String Jval :=
  if strategy = "truncate" then
    let bundleStr := dumpsVal bundle
    let maxChars := targetTokens * 4
    if bundleStr.length > maxChars then
      match jsonLoads (bundleStr.take maxChars ++ ['}']) with
      | some v => Except.ok v
      | none => Except.error "json.decoder.JSONDecodeError"
    else Except.ok bundle
  else Except.ok bundle

/-- `DelegationEngine.create_context_bundle` (delegation.py 115-170):
assemble the bundle dict in insertion order, then compress when the
estimated token count exceeds `max_bundle_tokens`.  `timestamp` stands
for `datetime.utcnow().isoformat()` and also feeds `_generate_bundle_id`. -/
def createContextBundle (cfg : BundleConfig) (taskType : String)
    (inputs : Jval) (includeReasoning : Bool) (timestamp : String) :
    Except String Jval :=
  let fields0 : List (String × Jval) :=
    [("task_type", Jval.str taskType),
     ("created_at", Jval.str timestamp),
     ("bundle_id", Jval.str ("bundle_" ++ taskType ++ "_" ++ timestamp))]
  let fields1 := if cfg.includeInputs then fields0 ++ [("inputs", inputs)]
    else fields0
  let fields2 := if cfg.includeOutputs then fields1 ++ [("outputs", Jval.null)]
    else fields1
  let fields3 := if cfg.includeReasoning && includeReasoning then
      fields2 ++ [("reasoning", Jval.arr [])]
    else fields2
  let fields4 := if cfg.includeToolCalls then
      fields3 ++ [("tool_calls", Jval.arr [])]
    else fields3
  let bundle := Jval.obj fields4
  if estimateBundleTokens bundle > cfg.maxBundleTokens then
    compressBundle bundle cfg.compressionStrategy cfg.maxBundleTokens
  else Except.ok bundle

end CAFactory

namespace CAFactory

/-- Claim C1: `should_delegate` returns the result of the first matching
rule in the fixed order force-delegate, never-delegate, not-delegated,
token threshold, multi-source threshold, reasoning-depth threshold,
otherwise false; a task type in `force_delegate` yields `true` regardless
of complexity, and one in `never_delegate` (and not in `force_delegate`)
yields `false` regardless. -/
theorem c1_should_delegate_first_match (eng : DelegationEngine)
    (t : String) (c : Complexity) :
    shouldDelegate eng t c = specShouldDelegate eng t c
    ∧ (t ∈ eng.thresholds.forceDelegate → shouldDelegate eng t c = true)
    ∧ (t ∈ eng.thresholds.neverDelegate → t ∉ eng.thresholds.forceDelegate →
        shouldDelegate eng t c = false) := by
  refine ⟨?_, ?_, ?_⟩
  · simp [shouldDelegate, specShouldDelegate, List.contains]
  · intro h
    simp [shouldDelegate, List.contains, h]
  · intro h hn
    simp [shouldDelegate, List.contains, h, hn]

/-- Concrete instantiation of `c1_should_delegate_first_match`:
a force-delegated type is delegated even at zero complexity, and a
never-delegated type is refused even at huge complexity. -/
theorem c1_should_delegate_witness :
    shouldDelegate ⟨["qa_response"], { forceDelegate := ["qa_response"] }⟩
      "qa_response" ⟨0, 0, 0⟩ = true
    ∧ shouldDelegate ⟨["qa_response"], { neverDelegate := ["qa_response"] }⟩
      "qa_response" ⟨999999, 99, 99⟩ = false := by
  constructor
  · exact (c1_should_delegate_first_match _ _ _).2.1 (by decide)
  · exact (c1_should_delegate_first_match _ _ _).2.2 (by decide) (by decide)

/-- Claim C2 as stated is false: `_prune_context` never consults
`estimate_tokens` — it unconditionally filters `primed_knowledge`.  The
context below has estimated token count 0 ≤ 8000, yet pruning with the
default policy drops its single knowledge entry (relevance 0 < 0.5). -/
theorem c2_prune_noop_counterexample :
    estimateTokens ⟨"", "", "", [⟨0, "k"⟩], []⟩ ≤ 8000
    ∧ pruneContext {} ⟨"", "", "", [⟨0, "k"⟩], []⟩ 8000
        ≠ ⟨"", "", "", [⟨0, "k"⟩], []⟩ := by
  constructor
  · decide
  · decide

/-- Helper: `pruneContext` only rewrites the `primed_knowledge` field
(temporal pruning is the identity on `inputs`). -/
theorem pruneContext_eq (policy : PruningPolicy) (c : Context) (T : Nat) :
    pruneContext policy c T
      = { c with primedKnowledge := pruneKnowledge policy c.primedKnowledge } := by
  unfold pruneContext
  split <;> rfl

/-- Helper: the knowledge pipeline is the identity on a list that is
already sorted descending, within the document cap, and above the
relevance floor. -/
theorem pruneKnowledge_eq_self (policy : PruningPolicy)
    (l : List KnowledgeEntry)
    (hsorted : l.Sorted relevanceGe)
    (hlen : l.length ≤ policy.maxDocumentsPerQuery)
    (hrel : ∀ k ∈ l, policy.minRelevanceScore ≤ k.relevanceScore) :
    pruneKnowledge policy l = l := by
  unfold pruneKnowledge
  rw [hsorted.insertionSort_eq, List.take_of_length_le hlen]
  exact List.filter_eq_self.mpr (fun k hk => by simpa using hrel k hk)

/-- Helper: the knowledge pipeline always emits a list sorted descending
by relevance. -/
theorem pruneKnowledge_sorted (policy : PruningPolicy)
    (l : List KnowledgeEntry) :
    (pruneKnowledge policy l).Sorted relevanceGe := by
  unfold pruneKnowledge
  exact ((List.sorted_insertionSort relevanceGe l).sublist
    (List.take_sublist _ _)).sublist (List.filter_sublist _)

/-- Helper: the knowledge pipeline emits at most
`max_documents_per_query` entries. -/
theorem pruneKnowledge_length (policy : PruningPolicy)
    (l : List KnowledgeEntry) :
    (pruneKnowledge policy l).length ≤ policy.maxDocumentsPerQuery := by
  unfold pruneKnowledge
  exact le_trans (List.length_filter_le _ _) (List.length_take_le _ _)

/-- Helper: every entry the knowledge pipeline emits is above the
relevance floor. -/
theorem pruneKnowledge_rel (policy : PruningPolicy)
    (l : List KnowledgeEntry) :
    ∀ k ∈ pruneKnowledge policy l,
      policy.minRelevanceScore ≤ k.relevanceScore := by
  intro k hk
  have := List.of_mem_filter hk
  simpa using this

/-- Claim C2, amended: if `estimate_tokens(C) ≤ T` and in addition
`C.primed_knowledge` is already sorted by non-increasing relevance score,
has at most `max_documents_per_query` entries, and every entry's relevance
score is at least `min_relevance_score`, then `prune(C, T)` returns `C`
unchanged (every field, including the `primed_knowledge` list and its
order). -/
theorem c2_prune_noop_amended (policy : PruningPolicy) (c : Context)
    (T : Nat)
    (_hest : estimateTokens c ≤ T)
    (hsorted : c.primedKnowledge.Sorted relevanceGe)
    (hlen : c.primedKnowledge.length ≤ policy.maxDocumentsPerQuery)
    (hrel : ∀ k ∈ c.primedKnowledge,
      policy.minRelevanceScore ≤ k.relevanceScore) :
    pruneContext policy c T = c := by
  rw [pruneContext_eq, pruneKnowledge_eq_self policy _ hsorted hlen hrel]

/-- Concrete instantiation of `c2_prune_noop_amended`: a context whose
primed knowledge is sorted descending, short enough, and all above the
relevance floor is left untouched. -/
theorem c2_prune_noop_witness :
    pruneContext {} ⟨"sys", "dom", "in", [⟨mkRat 9 10, "a"⟩, ⟨mkRat 6 10, "b"⟩], []⟩
      8000 = ⟨"sys", "dom", "in", [⟨mkRat 9 10, "a"⟩, ⟨mkRat 6 10, "b"⟩], []⟩ :=
  c2_prune_noop_amended {} _ 8000 (by decide) (by decide) (by decide)
    (by decide)

/-- Claim C3: `prune` is idempotent — for every policy, context and
target, `prune(prune(C, T), T) = prune(C, T)`. -/
theorem c3_prune_idempotent (policy : PruningPolicy) (c : Context)
    (T : Nat) :
    pruneContext policy (pruneContext policy c T) T
      = pruneContext policy c T := by
  rw [pruneContext_eq policy c T, pruneContext_eq]
  rw [pruneKnowledge_eq_self policy _ (pruneKnowledge_sorted policy _)
    (pruneKnowledge_length policy _) (pruneKnowledge_rel policy _)]

/-- Claim C4 fails on the code: with `compression_strategy = "truncate"`
and `max_bundle_tokens = 10`, the bundle for task `qa_response` serialises
to more than 40 characters, so `_compress_bundle` cuts the JSON text at
40 characters — landing inside the string `"created_at"` — appends `"}"`
and calls `json.loads` on
`{"task_type": "qa_response", "created_at}`, which is not valid JSON:
`create_context_bundle` lets the `json.JSONDecodeError` escape instead of
returning a well-formed bundle. -/
theorem c4_truncate_decode_error :
    createContextBundle
        { maxBundleTokens := 10, compressionStrategy := "truncate" }
        "qa_response" (Jval.obj [("question", Jval.str "what happened")])
        true "2025-01-01T00:00:00"
      = Except.error "json.decoder.JSONDecodeError" := by
  set_option maxRecDepth 8000 in rfl

/-- Claim C5: when the awaited execution times out, `spawn_subagent`
returns (rather than raises) the structured dict
`{"error": "Sub-agent execution timeout", "subagent_id": ..., "timeout": ...}`,
whose payload carries the worker's sub-agent id and the configured
timeout value.  (`spawnSubagentBody` is total: every outcome, timeout
included, yields a `SpawnResult`.) -/
theorem c5_timeout_structured_result (reg : Registry)
    (subId agentType startedAt : String) (timeout : Nat) :
    (spawnSubagentBody reg subId agentType startedAt timeout
        ExecOutcome.timesOut).1
      = SpawnResult.timeoutErr "Sub-agent execution timeout" subId
          timeout := rfl

/-- Helper: looking up a key that is absent from an association list's
key set yields `none`. -/
theorem dictGet_eq_none_of_not_mem {α : Type} (l : List (String × α))
    (k : String) (h : k ∉ l.map Prod.fst) : dictGet l k = none := by
  induction l with
  | nil => rfl
  | cons p rest ih =>
    simp only [List.map_cons, List.mem_cons] at h
    push_neg at h
    unfold dictGet
    rw [if_neg (fun he => h.1 he.symm)]
    exact ih h.2

/-- Helper: deleting a key from an association list with no duplicate
keys makes lookup of that key yield `none`. -/
theorem dictGet_dictDel_self {α : Type} (l : List (String × α))
    (k : String) (h : (l.map Prod.fst).Nodup) :
    dictGet (dictDel l k) k = none := by
  induction l with
  | nil => rfl
  | cons p rest ih =>
    simp only [List.map_cons, List.nodup_cons] at h
    unfold dictDel
    by_cases hk : p.1 = k
    · rw [if_pos hk]
      exact dictGet_eq_none_of_not_mem rest k (hk ▸ h.1)
    · rw [if_neg hk]
      unfold dictGet
      rw [if_neg hk]
      exact ih h.2

/-- Helper: a key present after `dictSet` is the set key or was present
before. -/
theorem dictSet_mem_keys {α : Type} (l : List (String × α))
    (k : String) (v : α) (k' : String)
    (h : k' ∈ (dictSet l k v).map Prod.fst) :
    k' = k ∨ k' ∈ l.map Prod.fst := by
  induction l with
  | nil => exact Or.inl (by simpa [dictSet] using h)
  | cons p rest ih =>
    unfold dictSet at h
    by_cases hk : p.1 = k
    · rw [if_pos hk] at h
      simp only [List.map_cons, List.mem_cons] at h ⊢
      rcases h with he | hm
      · exact Or.inl he
      · exact Or.inr (Or.inr hm)
    · rw [if_neg hk] at h
      simp only [List.map_cons, List.mem_cons] at h ⊢
      rcases h with he | hm
      · exact Or.inr (Or.inl he)
      · rcases ih hm with he' | hm'
        · exact Or.inl he'
        · exact Or.inr (Or.inr hm')

/-- Helper: `dictSet` leaves the key set's no-duplicates property
intact. -/
theorem nodup_keys_dictSet {α : Type} (l : List (String × α))
    (k : String) (v : α) (h : (l.map Prod.fst).Nodup) :
    ((dictSet l k v).map Prod.fst).Nodup := by
  induction l with
  | nil => simp [dictSet]
  | cons p rest ih =>
    simp only [List.map_cons, List.nodup_cons] at h
    unfold dictSet
    by_cases hk : p.1 = k
    · rw [if_pos hk]
      simp only [List.map_cons, List.nodup_cons]
      exact ⟨hk ▸ h.1, h.2⟩
    · rw [if_neg hk]
      simp only [List.map_cons, List.nodup_cons]
      refine ⟨?_, ih h.2⟩
      intro hmem
      rcases (dictSet_mem_keys rest k v p.1 hmem) with he | hm
      · exact hk he
      · exact h.1 hm

/-- Claim C6: on every exit path — completion, exception, timeout — the
worker's handle is absent from the active registry after
`spawn_subagent` returns (the `finally` block deletes it); the Python
dict has no duplicate keys, which the `Nodup` hypothesis records. -/
theorem c6_deregistered_on_all_paths (reg : Registry)
    (subId agentType startedAt : String) (timeout : Nat)
    (outcome : ExecOutcome)
    (hnodup : (reg.map Prod.fst).Nodup) :
    dictGet (spawnSubagentBody reg subId agentType startedAt timeout
        outcome).2 subId = none := by
  have h1 : ((dictSet reg subId
      ⟨agentType, startedAt, timeout, SubStatus.running⟩).map
        Prod.fst).Nodup := nodup_keys_dictSet reg _ _ hnodup
  unfold spawnSubagentBody
  cases outcome <;>
    exact dictGet_dictDel_self _ _ (nodup_keys_dictSet _ _ _ h1)

/-- Concrete instantiation of `c6_deregistered_on_all_paths` for all
three outcomes, starting from a registry that already holds another
worker. -/
theorem c6_deregistered_witness :
    dictGet (spawnSubagentBody
        [("subagent_qa_1", ⟨"qa", "t0", 60, SubStatus.running⟩)]
        "subagent_qa_2" "qa" "t1" 60 ExecOutcome.timesOut).2
      "subagent_qa_2" = none
    ∧ dictGet (spawnSubagentBody
        [("subagent_qa_1", ⟨"qa", "t0", 60, SubStatus.running⟩)]
        "subagent_qa_2" "qa" "t1" 60 (ExecOutcome.completes 2500
          (mkRat 88 100))).2 "subagent_qa_2" = none
    ∧ dictGet (spawnSubagentBody
        [("subagent_qa_1", ⟨"qa", "t0", 60, SubStatus.running⟩)]
        "subagent_qa_2" "qa" "t1" 60 (ExecOutcome.raises "boom")).2
      "subagent_qa_2" = none :=
  ⟨c6_deregistered_on_all_paths _ _ _ _ _ _ (by decide),
    c6_deregistered_on_all_paths _ _ _ _ _ _ (by decide),
    c6_deregistered_on_all_paths _ _ _ _ _ _ (by decide)⟩

/-- Claim C7: along every interleaving of the spawning coroutines'
atomic segments, the count of registered (running) handles never exceeds
`max_parallel_subagents`: a coroutine that arrives while the registry is
full can only move to the waiting phase, and registration (direct or
from the wait loop) is only enabled while the count is strictly below
the bound. -/
theorem c7_concurrency_bound (s0 s : SpawnSystem)
    (hinit : s0.running ≤ s0.maxParallel)
    (hreach : SpawnReachable s0 s) :
    s.running ≤ s.maxParallel := by
  induction hreach with
  | refl => exact hinit
  | tail _ step ih =>
    cases step with
    | registerDirect h hcap => exact hcap
    | enterWait h hfull => exact ih
    | registerFromWait h hcap => exact hcap
    | finish h => exact le_trans (Nat.sub_le _ _) ih

/-- Concrete instantiation of `c7_concurrency_bound`: after three direct
registrations from an initially empty registry with bound 3, a fourth
arrival can only enter the wait phase, and the running count stays at the
bound. -/
theorem c7_concurrency_witness :
    (⟨1, 1, 3, 3⟩ : SpawnSystem).running
      ≤ (⟨1, 1, 3, 3⟩ : SpawnSystem).maxParallel :=
  c7_concurrency_bound ⟨5, 0, 0, 3⟩ ⟨1, 1, 3, 3⟩ (by decide)
    (Relation.ReflTransGen.head
      (SpawnStep.registerDirect ⟨5, 0, 0, 3⟩ (by decide) (by decide))
      (Relation.ReflTransGen.head
        (SpawnStep.registerDirect ⟨4, 0, 1, 3⟩ (by decide) (by decide))
        (Relation.ReflTransGen.head
          (SpawnStep.registerDirect ⟨3, 0, 2, 3⟩ (by decide) (by decide))
          (Relation.ReflTransGen.single
            (SpawnStep.enterWait ⟨2, 0, 3, 3⟩ (by decide) (by decide))))))

/-- Helper: a check step keeps `passed` at `false`. -/
theorem applyCheck_passed_mono (v : Validation) (b : Bool) (m : String)
    (h : v.passed = false) : (applyCheck v b m).passed = false := by
  unfold applyCheck
  split
  · rfl
  · exact h

/-- Helper: a check step keeps recorded failure messages. -/
theorem applyCheck_failures_mono (v : Validation) (b : Bool) (m : String)
    {x : String} (h : x ∈ v.failures) :
    x ∈ (applyCheck v b m).failures := by
  unfold applyCheck
  split
  · exact List.mem_append_left _ h
  · exact h

/-- Helper: metric recording does not touch `passed`. -/
theorem addMetric_passed (v : Validation) (n : String) (q : ℚ) :
    (addMetric v n q).passed = v.passed := rfl

/-- Helper: metric recording does not touch `failures`. -/
theorem addMetric_failures (v : Validation) (n : String) (q : ℚ) :
    (addMetric v n q).failures = v.failures := rfl

/-- Claim C8 as stated is false: `evaluate_rules` never consults
`fail_action`.  With `fail_action = "block"` and a rule evaluation whose
overall confidence 0 fails validation, its quality stage still returns
the result normally (with the failing report attached) instead of
raising. -/
theorem c8_block_counterexample :
    (validateRuleEvaluation ⟨⟨0, 0, 0⟩⟩).passed = false
    ∧ evaluateRulesQuality { failAction := some "block" } ⟨⟨0, 0, 0⟩⟩
        = Except.ok (⟨⟨0, 0, 0⟩⟩, validateRuleEvaluation ⟨⟨0, 0, 0⟩⟩) :=
  ⟨by decide, rfl⟩

/-- Claim C8, amended: under `fail_action = "block"`, only `ask_question`
raises when its quality validation fails; for any other `fail_action`
value `ask_question` returns the result with the failures recorded in
the attached report; and `evaluate_rules` returns the result with the
report attached regardless of `fail_action`, raising never. -/
theorem c8_fail_action_amended :
    (∀ (g : QualityGates) (r : QaResult),
      (validateQaResponse g r).passed = false →
      g.failAction.getD "warn" = "block" →
      askQuestionQuality g r
        = Except.error (validateQaResponse g r).failures)
    ∧ (∀ (g : QualityGates) (r : QaResult),
      g.failAction.getD "warn" ≠ "block" →
      askQuestionQuality g r = Except.ok (r, validateQaResponse g r))
    ∧ (∀ (g : QualityGates) (r : RuleEvalResult),
      evaluateRulesQuality g r = Except.ok (r, validateRuleEvaluation r)) := by
  refine ⟨?_, ?_, ?_⟩
  · intro g r hfail hblock
    simp [askQuestionQuality, hfail, hblock]
  · intro g r hnb
    cases hp : (validateQaResponse g r).passed with
    | false => simp [askQuestionQuality, hp, hnb]
    | true => simp [askQuestionQuality, hp]
  · intro g r
    rfl

/-- Concrete instantiation of `c8_fail_action_amended`: a failing QA
response is blocked under `fail_action = "block"`, returned under the
default `"warn"`, and a failing rule evaluation is returned even under
`"block"`. -/
theorem c8_fail_action_witness :
    askQuestionQuality { failAction := some "block" } ⟨0, []⟩
      = Except.error (validateQaResponse { failAction := some "block" }
          ⟨0, []⟩).failures
    ∧ askQuestionQuality {} ⟨0, []⟩
      = Except.ok (⟨0, []⟩, validateQaResponse {} ⟨0, []⟩)
    ∧ evaluateRulesQuality { failAction := some "block" } ⟨⟨0, 0, 0⟩⟩
      = Except.ok (⟨⟨0, 0, 0⟩⟩, validateRuleEvaluation ⟨⟨0, 0, 0⟩⟩) :=
  ⟨c8_fail_action_amended.1 _ _ (by decide) (by decide),
    c8_fail_action_amended.2.1 _ _ (by decide),
    c8_fail_action_amended.2.2 _ _⟩

/-- Claim C9 as stated is false: `validate_qa_response` checks confidence
against the hard-coded literal `0.7` (quality_control.py line 129), not
against a configured minimum-confidence threshold.  In a configuration
whose minimum-confidence threshold is 0.9, a response with confidence
0.8 is below the configured threshold, yet the report passes with no
failures (its single citation, relevance 0.9, clears the citation
checks). -/
theorem c9_configured_threshold_counterexample :
    mkRat 8 10 < mkRat 9 10
    ∧ (validateQaResponse {} ⟨mkRat 8 10, [⟨mkRat 9 10, ""⟩]⟩).passed = true
    ∧ (validateQaResponse {} ⟨mkRat 8 10, [⟨mkRat 9 10, ""⟩]⟩).failures
        = [] := by
  refine ⟨by decide, ?_, ?_⟩ <;>
  · norm_num [validateQaResponse, applyCheck, addMetric, natToRat,
      Rat.mkRat_eq_div]

/-- Claim C9, amended: the confidence check compares against the fixed
threshold 0.7.  For every result whose confidence is below 0.7 the report
has `passed = false` and its failures contain the string naming both the
measured confidence and the threshold 0.7 (the f-string of line 134). -/
theorem c9_confidence_threshold_amended (g : QualityGates) (r : QaResult)
    (h : r.confidence < mkRat 7 10) :
    (validateQaResponse g r).passed = false
    ∧ ("Confidence " ++ fmtScore r.confidence ++ " below threshold "
        ++ fmtScore (mkRat 7 10)) ∈ (validateQaResponse g r).failures := by
  constructor
  · unfold validateQaResponse
    dsimp only
    split
    · rw [addMetric_passed]
      apply applyCheck_passed_mono
      rw [addMetric_passed]
      simp [applyCheck, h]
    · rw [addMetric_passed]
      apply applyCheck_passed_mono
      rw [addMetric_passed]
      apply applyCheck_passed_mono
      rw [addMetric_passed]
      simp [applyCheck, h]
  · unfold validateQaResponse
    dsimp only
    split
    · rw [addMetric_failures]
      apply applyCheck_failures_mono
      rw [addMetric_failures]
      simp [applyCheck, h]
    · rw [addMetric_failures]
      apply applyCheck_failures_mono
      rw [addMetric_failures]
      apply applyCheck_failures_mono
      rw [addMetric_failures]
      simp [applyCheck, h]

/-- Concrete instantiation of `c9_confidence_threshold_amended` matching
the spec's worked example: confidence 0.5 yields `passed = false` and the
failure string `"Confidence 0.5 below threshold 0.7"`, which contains
both `0.5` and `0.7` as substrings. -/
theorem c9_confidence_threshold_witness :
    (validateQaResponse {} ⟨mkRat 1 2, [⟨mkRat 9 10, ""⟩]⟩).passed = false
    ∧ "Confidence 0.5 below threshold 0.7"
        ∈ (validateQaResponse {} ⟨mkRat 1 2, [⟨mkRat 9 10, ""⟩]⟩).failures
    ∧ "0.5".data <:+: "Confidence 0.5 below threshold 0.7".data
    ∧ "0.7".data <:+: "Confidence 0.5 below threshold 0.7".data := by
  have h := c9_confidence_threshold_amended {}
    ⟨mkRat 1 2, [⟨mkRat 9 10, ""⟩]⟩ (by decide)
  refine ⟨h.1, ?_, by decide, by decide⟩
  have hmsg : ("Confidence " ++ fmtScore (mkRat 1 2) ++ " below threshold "
      ++ fmtScore (mkRat 7 10)) = "Confidence 0.5 below threshold 0.7" := by
    decide
  exact hmsg ▸ h.2

/-- Claim C10: the metrics returned by `get_metrics` are independent of
the optional `start_date` and `end_date` arguments — on the same recorded
state any two choices of date arguments return identical retrieval,
response, and performance aggregates; the dates are only echoed into
`aggregation_period`. -/
theorem c10_get_metrics_date_independent (st : QCState)
    (d1 d2 d1' d2' : Option String) :
    (getMetrics st d1 d2).retrievalAgg = (getMetrics st d1' d2').retrievalAgg
    ∧ (getMetrics st d1 d2).responseAgg
        = (getMetrics st d1' d2').responseAgg
    ∧ (getMetrics st d1 d2).performanceAgg
        = (getMetrics st d1' d2').performanceAgg
    ∧ (getMetrics st d1 d2).aggregationPeriod
        = ⟨d1.getD "all_time", d2.getD "now"⟩ :=
  ⟨rfl, rfl, rfl, rfl⟩

end CAFactory
